import Mathlib

/-!
Shallow embedding of the core of the object-and-action-detection backend:
the per-subject action state machine (`state_machine.py`), the frame ring
buffer (`ring_buffer.py`), the arbitration policy of the frame processor
(`frame_processor.py`), the LLM response parsing (`llm_detector.py`) and the
event materialization glue.  Confidences and timestamps are modelled as
rationals, frames as abstract payloads.
-/

namespace FactoryConsole

/-- `ActionState` enumeration from `app/api/schemas.py`. -/
inductive ActionState where
  | idle
  | bottle_in_hand
  | cap_opening
  | drinking
  | completed
  | uncertain
deriving DecidableEq, Repr

/-- The string value of each enum member (`ActionState(str, Enum)`). -/
def ActionState.value : ActionState → String
  | .idle => "idle"
  | .bottle_in_hand => "bottle_in_hand"
  | .cap_opening => "cap_opening"
  | .drinking => "drinking"
  | .completed => "completed"
  | .uncertain => "uncertain"

/-- `ActionSignals` from `app/api/schemas.py` (all default to 0.0). -/
structure ActionSignals where
  hand_bottle_proximity : ℚ := 0
  neck_hand_proximity : ℚ := 0
  wrist_rotation : ℚ := 0
  mouth_bottle_proximity : ℚ := 0
  bottle_tilt : ℚ := 0
deriving DecidableEq, Repr

instance : Inhabited ActionSignals := ⟨{}⟩

/-- `ActionResult` from `app/api/schemas.py`. -/
structure ActionResult where
  state : ActionState
  confidence : ℚ
  signals : ActionSignals := {}
  activity : String := ""
deriving DecidableEq, Repr

/-- `BoundingBox` from `app/api/schemas.py`. -/
structure BoundingBox where
  x1 : ℚ
  y1 : ℚ
  x2 : ℚ
  y2 : ℚ
deriving DecidableEq, Repr

/-- `PersonDetection` from `app/api/schemas.py` (fields the core pipeline
reads; `nearby_objects` and `pose` are never consulted by the arbitration
or state-machine paths and are omitted). -/
structure PersonDetection where
  track_id : ℤ := 0
  person_bbox : Option BoundingBox := none
  bottle_bbox : Option BoundingBox := none
  action : ActionResult
deriving DecidableEq, Repr

/-! ## State machine (`app/core/state_machine.py`) -/

/-- `StateTransition` record. -/
structure StateTransition where
  from_state : ActionState
  to_state : ActionState
  timestamp : ℚ
  confidence : ℚ
deriving DecidableEq, Repr

/-- `TrackedPerson` dataclass. -/
structure TrackedPerson where
  track_id : ℤ
  current_state : ActionState := .idle
  state_confidence : ℚ := 0
  consecutive_frames : ℕ := 0
  state_history : List StateTransition := []
  sequence_started_at : Option ℚ := none
  last_update : ℚ := 0
  sequence_states : List ActionState := []
deriving DecidableEq, Repr

/-- Fresh tracking state for a person first seen at time `now`
(`get_or_create_person` constructs `TrackedPerson(track_id=track_id)`). -/
def mkTrackedPerson (track_id : ℤ) (now : ℚ) : TrackedPerson :=
  { track_id := track_id, last_update := now }

/-- `ActionStateMachine.VALID_TRANSITIONS` class attribute. -/
def VALID_TRANSITIONS : ActionState → List ActionState
  | .idle => [.bottle_in_hand, .idle]
  | .bottle_in_hand => [.cap_opening, .idle, .bottle_in_hand]
  | .cap_opening => [.drinking, .bottle_in_hand, .idle, .cap_opening]
  | .drinking => [.completed, .idle, .drinking]
  | .completed => [.idle, .completed]
  | .uncertain => [.idle, .bottle_in_hand, .cap_opening, .drinking]

/-- `ActionStateMachine.SEQUENCE_STATES` class attribute. -/
def SEQUENCE_STATES : List ActionState :=
  [.bottle_in_hand, .cap_opening, .drinking]

/-- The scalar configuration of `ActionStateMachine.__init__`. -/
structure SMConfig where
  confidence_threshold : ℚ
  consecutive_frames_required : ℕ
deriving DecidableEq, Repr

/-- Defaults from `app/config.py`: `confidence_threshold = 0.6`,
`consecutive_frames_required = 2`. -/
def defaultSMConfig : SMConfig :=
  { confidence_threshold := mkRat 6 10, consecutive_frames_required := 2 }

/-- Event dict built by `_create_event_data`. -/
structure EventData where
  track_id : ℤ
  start_ts : Option ℚ
  end_ts : ℚ
  sequence : List String
  confidence : ℚ
deriving DecidableEq, Repr

/-- `ActionStateMachine._reset_to_idle` (returns `ActionState.IDLE`;
here the updated person is returned, the return value being `.idle`). -/
def reset_to_idle (person : TrackedPerson) : TrackedPerson :=
  { person with
      current_state := .idle
      state_confidence := 0
      consecutive_frames := 0
      sequence_started_at := none
      sequence_states := [] }

/-- The aggregate confidence computed by `_create_event_data`: the mean of
the confidences of the last up-to-5 recorded transitions
(`state_history[-5:]`), 0.0 when there are none. -/
def avg_recent_confidence (state_history : List StateTransition) : ℚ :=
  let recent_transitions := state_history.drop (state_history.length - 5)
  if recent_transitions.length = 0 then 0
  else (recent_transitions.map (fun t => t.confidence)).sum / (recent_transitions.length : ℚ)

/-- `ActionStateMachine._create_event_data` at wall-clock time `now`
(`datetime.utcnow()`). -/
def create_event_data (person : TrackedPerson) (now : ℚ) : EventData :=
  { track_id := person.track_id
    start_ts := person.sequence_started_at
    end_ts := now
    sequence := person.sequence_states.map ActionState.value
    confidence := avg_recent_confidence person.state_history }

/-- `ActionStateMachine.update` for one tracked person, with the mutation of
`person` made explicit: returns the updated person together with the
Python return tuple `(current_state, is_completed, event_data)`.
`now` stands for `datetime.utcnow()`. -/
def update (cfg : SMConfig) (person0 : TrackedPerson) (detected_state : ActionState)
    (confidence : ℚ) (now : ℚ) :
    TrackedPerson × ActionState × Bool × Option EventData :=
  let person := { person0 with last_update := now }
  -- Handle uncertain state - don't change current state
  if detected_state = ActionState.uncertain then
    (person, person.current_state, false, none)
  -- Check if this is the same state being detected
  else if detected_state = person.current_state then
    let person := { person with
        consecutive_frames := person.consecutive_frames + 1
        state_confidence := max person.state_confidence confidence }
    (person, person.current_state, false, none)
  -- Check if transition is valid
  else if detected_state ∉ VALID_TRANSITIONS person.current_state then
    -- Invalid transition - reset to idle if stuck
    if mkRat 9 10 < confidence ∧ detected_state = ActionState.idle then
      (reset_to_idle person, ActionState.idle, false, none)
    else
      (person, person.current_state, false, none)
  -- Check confidence threshold
  else if confidence < cfg.confidence_threshold then
    let person := { person with consecutive_frames := 0 }
    (person, person.current_state, false, none)
  else
    -- Increment consecutive frames for new state
    let person := { person with consecutive_frames := person.consecutive_frames + 1 }
    -- Check if we have enough consecutive frames
    if person.consecutive_frames < cfg.consecutive_frames_required then
      (person, person.current_state, false, none)
    else
      -- Perform state transition
      let old_state := person.current_state
      let person := { person with
          current_state := detected_state
          state_confidence := confidence
          consecutive_frames := 1 }
      -- Record transition
      let transition : StateTransition :=
        { from_state := old_state, to_state := detected_state
          timestamp := now, confidence := confidence }
      let person := { person with state_history := person.state_history ++ [transition] }
      -- Track sequence progress
      let person :=
        if detected_state = ActionState.bottle_in_hand ∧ old_state = ActionState.idle then
          { person with sequence_started_at := some now, sequence_states := [detected_state] }
        else if detected_state ∈ SEQUENCE_STATES ∧ person.sequence_started_at.isSome then
          if detected_state ∉ person.sequence_states then
            { person with sequence_states := person.sequence_states ++ [detected_state] }
          else person
        else person
      -- Check for completion
      if detected_state = ActionState.completed then
        let event_data := create_event_data person now
        (reset_to_idle person, ActionState.completed, true, some event_data)
      -- Reset if going back to idle
      else if detected_state = ActionState.idle then
        let person := reset_to_idle person
        (person, person.current_state, false, none)
      else
        (person, person.current_state, false, none)

/-- One state-machine step, keeping only the updated person. -/
def stepPerson (cfg : SMConfig) (person : TrackedPerson) (detected_state : ActionState)
    (confidence : ℚ) (now : ℚ) : TrackedPerson :=
  (update cfg person detected_state confidence now).1

/-- The association table `tracked_persons` of one `ActionStateMachine`. -/
structure Machine where
  cfg : SMConfig
  tracked_persons : List (ℤ × TrackedPerson)
deriving DecidableEq, Repr

/-- `ActionStateMachine.cleanup_stale`: drop every person whose age
`now - last_update` exceeds `max_age_seconds`. -/
def cleanup_stale (m : Machine) (max_age_seconds : ℚ) (now : ℚ) : Machine :=
  { m with tracked_persons :=
      m.tracked_persons.filter (fun p => ¬ (max_age_seconds < now - p.2.last_update)) }

/-! ## Ring buffer (`app/core/ring_buffer.py`) -/

/-- `BufferedFrame` dataclass; the image payload is abstracted to a natural
number. -/
structure BufferedFrame where
  frame : ℕ
  timestamp : ℚ
  frame_id : ℕ
deriving DecidableEq, Repr

/-- `RingBuffer` state: the `deque(maxlen=duration_seconds*fps)` together
with the frame counter. -/
structure RingBuffer where
  duration_seconds : ℕ
  fps : ℕ
  buffer : List BufferedFrame
  frame_counter : ℕ
deriving DecidableEq, Repr

/-- `self.max_frames = duration_seconds * fps`. -/
def RingBuffer.max_frames (rb : RingBuffer) : ℕ :=
  rb.duration_seconds * rb.fps

/-- `RingBuffer.__init__` (defaults from `app/config.py`:
`ring_buffer_duration_sec = 30`, `default_fps = 15`). -/
def mkRingBuffer (duration_seconds : ℕ := 30) (fps : ℕ := 15) : RingBuffer :=
  { duration_seconds := duration_seconds, fps := fps, buffer := [], frame_counter := 0 }

/-- `RingBuffer.add_frame`: bump the counter, append a copy of the frame,
and — by the `deque(maxlen=...)` semantics — evict from the front down to
`max_frames` entries.  Returns the new buffer and the assigned frame id. -/
def add_frame (rb : RingBuffer) (frame : ℕ) (timestamp : ℚ) : RingBuffer × ℕ :=
  let counter := rb.frame_counter + 1
  let buffered : BufferedFrame :=
    { frame := frame, timestamp := timestamp, frame_id := counter }
  let appended := rb.buffer ++ [buffered]
  let buffer := appended.drop (appended.length - rb.max_frames)
  ({ rb with buffer := buffer, frame_counter := counter }, counter)

/-- Fold a list of `(frame, timestamp)` pairs through `add_frame`. -/
def add_frames (rb : RingBuffer) (fs : List (ℕ × ℚ)) : RingBuffer :=
  fs.foldl (fun b p => (add_frame b p.1 p.2).1) rb

/-- The `BufferedFrame` entries that a run of `add_frame` calls starting at
counter value `start` would construct, in append order. -/
def entriesFrom (start : ℕ) : List (ℕ × ℚ) → List BufferedFrame
  | [] => []
  | (f, t) :: rest => { frame := f, timestamp := t, frame_id := start + 1 } :: entriesFrom (start + 1) rest

/-- The last `n` elements of a list (what survives the deque eviction). -/
def takeLast (n : ℕ) (l : List BufferedFrame) : List BufferedFrame :=
  l.drop (l.length - n)

/-- `RingBuffer.get_frames_in_range`: entries with
`start_time ≤ timestamp ≤ end_time`, in insertion order. -/
def get_frames_in_range (rb : RingBuffer) (start_time end_time : ℚ) : List BufferedFrame :=
  rb.buffer.filter (fun f => start_time ≤ f.timestamp ∧ f.timestamp ≤ end_time)

/-- `RingBuffer.get_clip_frames` (defaults from `app/config.py`:
`clip_before_sec = 10`, `clip_after_sec = 10`). -/
def get_clip_frames (rb : RingBuffer) (event_start event_end : ℚ)
    (before_sec : ℚ := 10) (after_sec : ℚ := 10) : List BufferedFrame :=
  let clip_start := event_start - before_sec
  let clip_end := event_end + after_sec
  get_frames_in_range rb clip_start clip_end

/-- `RingBuffer.save_clip` outcome: `False` on an empty frame list or when
the video writer cannot be opened (`writer_opens` abstracts the cv2 writer),
`True` otherwise.  Only the returned Boolean is observable to callers. -/
def save_clip_ok (frames : List BufferedFrame) (writer_opens : Bool) : Bool :=
  if frames.isEmpty then false
  else writer_opens

/-! ## Arbitration (`app/core/frame_processor.py`) -/

/-- `FrameProcessor._MOVENET_MIN_CONF = 0.45`. -/
def MOVENET_MIN_CONF : ℚ := mkRat 45 100

/-- The `id_match` guard of `_pick_action` applied to a cached result:
yields the cached action when the cached detection is present and either
carries the same track id or exactly one person is visible. -/
def actionIfMatch (det : PersonDetection) (n_persons : ℕ)
    (cached : Option PersonDetection) : Option ActionResult :=
  match cached with
  | none => none
  | some c => if det.track_id = c.track_id ∨ n_persons = 1 then some c.action else none

/-- `FrameProcessor._pick_action`: choose the best action for one YOLO
detection from the cached MoveNet (primary) and LLM (secondary) results. -/
def pick_action (det : PersonDetection) (movenet llm : Option PersonDetection)
    (n_persons : ℕ) : ActionResult :=
  let mn_action := actionIfMatch det n_persons movenet
  let llm_action := actionIfMatch det n_persons llm
  -- the `if llm_action: return llm_action / return det.action` tail
  let fallthrough : ActionResult :=
    match llm_action with
    | some la => la
    | none => det.action
  match mn_action with
  | none => fallthrough
  | some mn =>
    -- MoveNet is primary — use if above threshold
    if MOVENET_MIN_CONF ≤ mn.confidence then
      -- For subtle states (cap_opening / drinking) also check LLM agreement
      if mn.state = ActionState.cap_opening ∨ mn.state = ActionState.drinking then
        match llm_action with
        | some la =>
          if la.state = mn.state then
            -- Both agree — boost confidence
            { state := mn.state
              confidence := min 1 ((mn.confidence + la.confidence) / 2 + mkRat 1 10)
              signals := mn.signals }
          else if mkRat 60 100 ≤ mn.confidence then mn
          else fallthrough
        | none =>
          if mkRat 60 100 ≤ mn.confidence then mn
          else fallthrough
      else mn
    else fallthrough

/-- A person entry as built by `YOLODetector.detect`
(`yolo_detector.py` lines 134-146): the action is always
`IDLE` with confidence 0 and default signals. -/
def yoloPersonDetection (track_id : ℤ) (person_bbox bottle_bbox : Option BoundingBox) :
    PersonDetection :=
  { track_id := track_id
    person_bbox := person_bbox
    bottle_bbox := bottle_bbox
    action := { state := ActionState.idle, confidence := 0, signals := {} } }

/-- `best = self._last_movenet_detection or self._last_llm_detection` in
`_frame_loop`. -/
def bestDetection (movenet llm : Option PersonDetection) : Option PersonDetection :=
  match movenet with
  | some m => some m
  | none => llm

/-- The state-machine gate of `_frame_loop`: the arguments passed to
`self._state_machine.update`, or `none` when the guard
`best and best.action.state not in (IDLE, UNCERTAIN)` blocks the call. -/
def stateMachineCall (movenet llm : Option PersonDetection) :
    Option (ℤ × ActionState × ℚ) :=
  match bestDetection movenet llm with
  | none => none
  | some best =>
    if best.action.state = ActionState.idle ∨ best.action.state = ActionState.uncertain then
      none
    else
      some (best.track_id, best.action.state, best.action.confidence)

/-! ## LLM response parsing (`app/detection/llm_detector.py`) -/

/-- The JSON object a confirmation-classifier response decodes to: an
optional `state` string and an optional `confidence` number.  `none` at the
outer level stands for text that is not valid JSON
(`json.JSONDecodeError`). -/
structure LlmJson where
  state : Option String
  confidence : Option ℚ
deriving DecidableEq, Repr

/-- `VisionLLMDetector._parse_response` after fence stripping: the decoded
object, or `{"state": "idle", "confidence": 0.0}` when decoding fails. -/
def parse_response (decoded : Option LlmJson) : LlmJson :=
  match decoded with
  | some r => r
  | none => { state := some "idle", confidence := some 0 }

/-- `ActionState(raw)` enum lookup by value string. -/
def stateOfString (raw : String) : Option ActionState :=
  if raw = "idle" then some .idle
  else if raw = "bottle_in_hand" then some .bottle_in_hand
  else if raw = "cap_opening" then some .cap_opening
  else if raw = "drinking" then some .drinking
  else if raw = "completed" then some .completed
  else if raw = "uncertain" then some .uncertain
  else none

/-- Python `str.lower()` (the state labels are ASCII). -/
def str_lower (s : String) : String :=
  String.mk (s.data.map Char.toLower)

/-- `VisionLLMDetector._parse_state`: `ActionState(raw.lower())`, mapping a
`ValueError` (unknown label) to `IDLE`. -/
def parse_state (raw : String) : ActionState :=
  (stateOfString (str_lower raw)).getD ActionState.idle

/-- `result.get("state") or "idle"`: a missing or empty (falsy) state label
falls back to `"idle"`. -/
def rawStateOf (r : LlmJson) : String :=
  match r.state with
  | none => "idle"
  | some s => if s = "" then "idle" else s

/-- The `(state, confidence)` pair computed by `detect_action` from a
successfully received response body:
`state = _parse_state(result.get("state") or "idle")`,
`confidence = float(result.get("confidence", 0.0))`. -/
def parseActionResponse (decoded : Option LlmJson) : ActionState × ℚ :=
  let result := parse_response decoded
  (parse_state (rawStateOf result), result.confidence.getD 0)

/-! ## Event materialization (`FrameProcessor._handle_event_completed`) -/

/-- The observable outcome of `_handle_event_completed`: whether the event
is forwarded to the persistence callback, and the `snapshot_path` /
`clip_path` references attached to it (`none` = Python `None`).
`snapshot_encode_ok` and `clip_writer_ok` abstract the success of the two
encoding operations (`save_snapshot` / `save_clip`), whose Boolean results
the caller ignores. -/
def handle_event_completed (event_id : String) (start_ts end_ts : Option ℚ)
    (rb : RingBuffer) (snapshot_encode_ok clip_writer_ok : Bool) :
    Bool × Option String × Option String :=
  match start_ts, end_ts with
  | some start_time, some end_time =>
    let snapshot_path := "data/snapshots/" ++ event_id ++ ".jpg"
    let _snapshot_saved := snapshot_encode_ok
    let clip_path := "data/clips/" ++ event_id ++ ".mp4"
    let clip_frames := get_clip_frames rb start_time end_time
    let _clip_saved := save_clip_ok clip_frames clip_writer_ok
    (true, some snapshot_path, if clip_frames.isEmpty then none else some clip_path)
  | _, _ => (false, none, none)

/-! ## Helper lemmas about the ring buffer -/

lemma entriesFrom_length (fs : List (ℕ × ℚ)) :
    ∀ start, (entriesFrom start fs).length = fs.length := by
  induction fs with
  | nil => intro start; rfl
  | cons p rest ih =>
    intro start
    obtain ⟨f, t⟩ := p
    simp [entriesFrom, ih]

lemma takeLast_length_le (n : ℕ) (l : List BufferedFrame) :
    (takeLast n l).length ≤ n := by
  unfold takeLast
  rw [List.length_drop]
  omega

lemma takeLast_of_length_le (n : ℕ) (l : List BufferedFrame) (h : l.length ≤ n) :
    takeLast n l = l := by
  unfold takeLast
  have h0 : l.length - n = 0 := by omega
  rw [h0, List.drop_zero]

lemma takeLast_append_takeLast (m : ℕ) (l l2 : List BufferedFrame) :
    takeLast m (takeLast m l ++ l2) = takeLast m (l ++ l2) := by
  unfold takeLast
  have h2 : l.drop (l.length - m) ++ l2 = (l ++ l2).drop (l.length - m) := by
    rw [List.drop_append_eq_append_drop]
    have h0 : l.length - m - l.length = 0 := by omega
    rw [h0, List.drop_zero]
  rw [h2, List.drop_drop]
  congr 1
  simp only [List.length_drop, List.length_append]
  omega

lemma add_frame_buffer (rb : RingBuffer) (f : ℕ) (t : ℚ) :
    (add_frame rb f t).1.buffer =
      takeLast rb.max_frames
        (rb.buffer ++ [{ frame := f, timestamp := t, frame_id := rb.frame_counter + 1 }]) := rfl

lemma add_frames_spec (fs : List (ℕ × ℚ)) :
    ∀ rb : RingBuffer, rb.buffer.length ≤ rb.max_frames →
      (add_frames rb fs).buffer =
        takeLast rb.max_frames (rb.buffer ++ entriesFrom rb.frame_counter fs) ∧
      (add_frames rb fs).max_frames = rb.max_frames := by
  induction fs with
  | nil =>
    intro rb h
    refine ⟨?_, rfl⟩
    show rb.buffer = _
    rw [entriesFrom, List.append_nil]
    exact (takeLast_of_length_le _ _ h).symm
  | cons p rest ih =>
    intro rb h
    obtain ⟨f, t⟩ := p
    have hstep : add_frames rb ((f, t) :: rest) = add_frames (add_frame rb f t).1 rest := rfl
    obtain ⟨ihb, ihm⟩ := ih (add_frame rb f t).1 (by
      rw [add_frame_buffer]
      exact takeLast_length_le _ _)
    have hmax : (add_frame rb f t).1.max_frames = rb.max_frames := rfl
    have hcnt : (add_frame rb f t).1.frame_counter = rb.frame_counter + 1 := rfl
    refine ⟨?_, by rw [hstep, ihm, hmax]⟩
    rw [hstep, ihb, hmax, hcnt, add_frame_buffer]
    rw [takeLast_append_takeLast, List.append_assoc]
    rfl

lemma add_frames_from_empty (d fps : ℕ) (fs : List (ℕ × ℚ)) :
    (add_frames (mkRingBuffer d fps) fs).buffer = takeLast (d * fps) (entriesFrom 0 fs) := by
  have h := (add_frames_spec fs (mkRingBuffer d fps) (by simp [mkRingBuffer])).1
  simpa [mkRingBuffer, RingBuffer.max_frames] using h

/-- C4: the ring buffer never holds more than `duration_seconds × fps`
entries; after any run of `add_frame` calls only the most recent
`capacity` entries remain in append order (the oldest evicted first); with
the defaults (30 s × 15 fps = 450) appending 500 distinct frames leaves
exactly the last 450. -/
theorem C4_ring_buffer_capacity :
    (∀ (d fps : ℕ) (fs : List (ℕ × ℚ)),
      (add_frames (mkRingBuffer d fps) fs).buffer.length ≤ d * fps) ∧
    (∀ (d fps : ℕ) (fs : List (ℕ × ℚ)),
      (add_frames (mkRingBuffer d fps) fs).buffer = takeLast (d * fps) (entriesFrom 0 fs)) ∧
    (∀ fs : List (ℕ × ℚ), fs.length = 500 →
      (add_frames (mkRingBuffer 30 15) fs).buffer = (entriesFrom 0 fs).drop 50 ∧
      (add_frames (mkRingBuffer 30 15) fs).buffer.length = 450) := by
  refine ⟨?_, ?_, ?_⟩
  · intro d fps fs
    rw [add_frames_from_empty]
    exact takeLast_length_le _ _
  · intro d fps fs
    exact add_frames_from_empty d fps fs
  · intro fs hlen
    have hb := add_frames_from_empty 30 15 fs
    have he : (entriesFrom 0 fs).length = 500 := by rw [entriesFrom_length]; exact hlen
    constructor
    · rw [hb]
      unfold takeLast
      rw [he]
    · rw [hb]
      unfold takeLast
      rw [List.length_drop, he]

/-- C4 witness: appending 500 concrete frames to the default ring buffer
leaves exactly 450 entries. -/
theorem C4_ring_buffer_capacity_witness :
    (List.replicate 500 ((0 : ℕ), (0 : ℚ))).length = 500 ∧
    (add_frames (mkRingBuffer 30 15) (List.replicate 500 ((0 : ℕ), (0 : ℚ)))).buffer.length = 450 :=
  ⟨by rw [List.length_replicate],
    (C4_ring_buffer_capacity.2.2 (List.replicate 500 ((0 : ℕ), (0 : ℚ)))
      (by rw [List.length_replicate])).2⟩

/-- C5: `get_clip_frames` queries `get_frames_in_range` on the window
`[event_start − before_sec, event_end + after_sec]` and returns exactly the
buffered entries whose timestamp lies in that closed window, in insertion
order (a sublist of the buffer). -/
theorem C5_clip_window (rb : RingBuffer) (event_start event_end before_sec after_sec : ℚ) :
    get_clip_frames rb event_start event_end before_sec after_sec =
      get_frames_in_range rb (event_start - before_sec) (event_end + after_sec) ∧
    get_clip_frames rb event_start event_end before_sec after_sec =
      rb.buffer.filter
        (fun f => event_start - before_sec ≤ f.timestamp ∧ f.timestamp ≤ event_end + after_sec) ∧
    (get_clip_frames rb event_start event_end before_sec after_sec).Sublist rb.buffer ∧
    (∀ f : BufferedFrame,
      f ∈ get_clip_frames rb event_start event_end before_sec after_sec ↔
        f ∈ rb.buffer ∧ event_start - before_sec ≤ f.timestamp ∧
          f.timestamp ≤ event_end + after_sec) := by
  refine ⟨rfl, rfl, List.filter_sublist _, ?_⟩
  intro f
  simp [get_clip_frames, get_frames_in_range, List.mem_filter]

/-- C1: for a subject whose matched MoveNet (pose) result has confidence at
least `pose_min_confidence` (0.45) in a subtle state (cap_opening or
drinking), agreement of the matched LLM (confirmation) result yields that
state with confidence `min(1, (pose_conf + confirm_conf)/2 + 0.10)`, purely
from the two cached results and the subject match. -/
theorem C1_agreement_boost (det mnDet llmDet : PersonDetection)
    (n_persons : ℕ)
    (hmatch_mv : det.track_id = mnDet.track_id ∨ n_persons = 1)
    (hmatch_llm : det.track_id = llmDet.track_id ∨ n_persons = 1)
    (hconf : MOVENET_MIN_CONF ≤ mnDet.action.confidence)
    (hsub : mnDet.action.state = ActionState.cap_opening ∨
      mnDet.action.state = ActionState.drinking)
    (hagree : llmDet.action.state = mnDet.action.state) :
    pick_action det (some mnDet) (some llmDet) n_persons =
      { state := mnDet.action.state
        confidence := min 1 ((mnDet.action.confidence + llmDet.action.confidence) / 2 + mkRat 1 10)
        signals := mnDet.action.signals } := by
  have hsub2 : mnDet.action.state = ActionState.cap_opening ∨
      mnDet.action.state = ActionState.drinking := hsub
  simp only [pick_action, actionIfMatch, if_pos hmatch_mv, if_pos hmatch_llm,
    if_pos hconf, if_pos hsub2, if_pos hagree]

/-- C1 witness: pose Drinking 0.70 with confirmation Drinking 0.80 on the
same subject yields Drinking with confidence 0.85. -/
theorem C1_agreement_boost_witness :
    pick_action (yoloPersonDetection 1 none none)
        (some { track_id := 1, action := { state := .drinking, confidence := mkRat 7 10 } })
        (some { track_id := 1, action := { state := .drinking, confidence := 8/10 } }) 1 =
      { state := ActionState.drinking, confidence := 85/100 } := by
  have h := C1_agreement_boost (yoloPersonDetection 1 none none)
    { track_id := 1, action := { state := .drinking, confidence := mkRat 7 10 } }
    { track_id := 1, action := { state := .drinking, confidence := 8/10 } }
    1 (Or.inl rfl) (Or.inl rfl)
    (by norm_num [MOVENET_MIN_CONF, Rat.mkRat_eq_divInt, Rat.divInt_eq_div])
    (Or.inr rfl) rfl
  rw [h]
  simp only [ActionResult.mk.injEq, and_true, true_and]
  norm_num [min_def, Rat.mkRat_eq_divInt, Rat.divInt_eq_div]

/-- C7: when no matched pose result reaches `pose_min_confidence` (0.45),
arbitration returns the matched confirmation result unmodified when there is
one, and otherwise the YOLO detection's own default action, which is Idle
with confidence 0. -/
theorem C7_pose_low_fallback (tid : ℤ) (pb bb : Option BoundingBox)
    (movenet llm : Option PersonDetection) (n_persons : ℕ)
    (hp : ∀ a : ActionResult,
      actionIfMatch (yoloPersonDetection tid pb bb) n_persons movenet = some a →
        a.confidence < MOVENET_MIN_CONF) :
    pick_action (yoloPersonDetection tid pb bb) movenet llm n_persons =
      (actionIfMatch (yoloPersonDetection tid pb bb) n_persons llm).getD
        { state := ActionState.idle, confidence := 0, signals := {} } := by
  cases hmv : actionIfMatch (yoloPersonDetection tid pb bb) n_persons movenet with
  | none =>
    simp only [pick_action, hmv]
    cases hllm : actionIfMatch (yoloPersonDetection tid pb bb) n_persons llm with
    | none => rfl
    | some la => rfl
  | some a =>
    have hlt := hp a hmv
    have hneg : ¬ MOVENET_MIN_CONF ≤ a.confidence := not_le.mpr hlt
    simp only [pick_action, hmv, if_neg hneg]
    cases hllm : actionIfMatch (yoloPersonDetection tid pb bb) n_persons llm with
    | none => rfl
    | some la => rfl

/-- C7 witness: with no cached pose result and a matched confirmation
result, the confirmation result is emitted unmodified; with neither, the
emitted action is Idle with confidence 0. -/
theorem C7_pose_low_fallback_witness :
    pick_action (yoloPersonDetection 1 none none) none
        (some { track_id := 1, action := { state := .drinking, confidence := 8/10 } }) 1 =
      { state := ActionState.drinking, confidence := 8/10 } ∧
    pick_action (yoloPersonDetection 1 none none) none none 1 =
      { state := ActionState.idle, confidence := 0 } := by
  constructor
  · have h := C7_pose_low_fallback 1 none none none
      (some { track_id := 1, action := { state := .drinking, confidence := 8/10 } }) 1
      (fun a ha => by simp [actionIfMatch] at ha)
    rw [h]
    rfl
  · have h := C7_pose_low_fallback 1 none none none none 1
      (fun a ha => by simp [actionIfMatch] at ha)
    rw [h]
    rfl

/-- Exhaustive shape of one `update` call: either it commits an entry into
`Completed` (flag true, event present, subject reset to Idle), or it returns
flag false with no event, leaving the current state equal to the previous
state, equal to the detected state, or reset via a detected Idle. -/
lemma update_shape (cfg : SMConfig) (person : TrackedPerson) (detected : ActionState)
    (c now : ℚ) :
    ((update cfg person detected c now).2.2.1 = true ∧ detected = ActionState.completed ∧
      (update cfg person detected c now).2.1 = ActionState.completed ∧
      (update cfg person detected c now).1.current_state = ActionState.idle ∧
      (update cfg person detected c now).1.sequence_states = [] ∧
      (∃ ev : EventData, (update cfg person detected c now).2.2.2 = some ev ∧
        ev.confidence = avg_recent_confidence (update cfg person detected c now).1.state_history)) ∨
    ((update cfg person detected c now).2.2.1 = false ∧
      (update cfg person detected c now).2.2.2 = none ∧
      ((update cfg person detected c now).1.current_state = person.current_state ∨
        (update cfg person detected c now).1.current_state = detected ∨
        detected = ActionState.idle)) := by
  by_cases h1 : detected = ActionState.uncertain
  · right
    simp [update, h1]
  by_cases h2 : detected = person.current_state
  · right
    have h1b : ¬ person.current_state = ActionState.uncertain := h2 ▸ h1
    simp [update, h1, h2, h1b]
  by_cases h3 : detected ∈ VALID_TRANSITIONS person.current_state
  · by_cases h4 : c < cfg.confidence_threshold
    · right
      simp [update, h1, h2, h3, h4]
    · by_cases h5 : person.consecutive_frames + 1 < cfg.consecutive_frames_required
      · right
        simp [update, h1, h2, h3, h4, h5]
      · by_cases hc : detected = ActionState.completed
        · left
          subst hc
          simp [update, h1, h2, h3, h4, h5, create_event_data, reset_to_idle,
            SEQUENCE_STATES]
        · by_cases hi : detected = ActionState.idle
          · right
            subst hi
            simp [update, h1, h2, h3, h4, h5, hc, reset_to_idle, SEQUENCE_STATES]
          · right
            simp only [update, h1, h2, h3, h4, h5, hc, hi, if_false, if_true,
              eq_self_iff_true, not_true, not_false_iff, ite_true, ite_false]
            split_ifs <;> simp [reset_to_idle]
  · by_cases h9 : mkRat 9 10 < c ∧ detected = ActionState.idle
    · right
      obtain ⟨h9a, h9b⟩ := h9
      subst h9b
      simp [update, h1, h2, h3, h9a, reset_to_idle]
    · right
      simp [update, h1, h2, h3, h9]

/-- C2 counterexample: with the default configuration, an `update` call with
confidence 0.3 (below the 0.6 threshold) that reports the subject's current
state increments the consecutive-match counter to 2 instead of resetting it
to 0, refuting the claim's universally quantified counter reset. -/
theorem C2_counterexample :
    (mkRat 3 10 < defaultSMConfig.confidence_threshold) ∧
    (update defaultSMConfig
        { track_id := 1, current_state := .bottle_in_hand, state_confidence := mkRat 7 10,
          consecutive_frames := 1, state_history := [], sequence_started_at := some 0,
          last_update := 0, sequence_states := [.bottle_in_hand] }
        ActionState.bottle_in_hand (mkRat 3 10) 5).1.consecutive_frames = 2 ∧
    ¬ ((update defaultSMConfig
        { track_id := 1, current_state := .bottle_in_hand, state_confidence := mkRat 7 10,
          consecutive_frames := 1, state_history := [], sequence_started_at := some 0,
          last_update := 0, sequence_states := [.bottle_in_hand] }
        ActionState.bottle_in_hand (mkRat 3 10) 5).1.consecutive_frames = 0) := by
  refine ⟨by decide, by decide, by decide⟩

/-- C2 (amended): with the default configuration, `update` below the
confidence threshold never changes the state and never completes; the
consecutive-match counter is reset to 0 exactly when the detected state is a
valid, distinct, non-Uncertain transition, is incremented when the detected
state equals the current state, and is unchanged otherwise. -/
theorem C2_low_confidence (person : TrackedPerson) (detected : ActionState) (c now : ℚ)
    (h : c < defaultSMConfig.confidence_threshold) :
    (update defaultSMConfig person detected c now).1.current_state = person.current_state ∧
    (update defaultSMConfig person detected c now).2.2.1 = false ∧
    (update defaultSMConfig person detected c now).1.consecutive_frames =
      (if detected = ActionState.uncertain then person.consecutive_frames
       else if detected = person.current_state then person.consecutive_frames + 1
       else if detected ∈ VALID_TRANSITIONS person.current_state then 0
       else person.consecutive_frames) := by
  have h9 : ¬ (mkRat 9 10 < c ∧ detected = ActionState.idle) := by
    rintro ⟨h91, -⟩
    have hth : defaultSMConfig.confidence_threshold ≤ mkRat 9 10 := by
      norm_num [defaultSMConfig, Rat.mkRat_eq_divInt, Rat.divInt_eq_div]
    linarith
  by_cases h1 : detected = ActionState.uncertain
  · simp [update, h1]
  by_cases h2 : detected = person.current_state
  · have h1b : ¬ person.current_state = ActionState.uncertain := h2 ▸ h1
    simp [update, h1, h2, h1b]
  by_cases h3 : detected ∈ VALID_TRANSITIONS person.current_state
  · simp [update, h1, h2, h3, h, h9]
  · simp [update, h1, h2, h3, h, h9]

/-- C2 witness: a 0.3-confidence Drinking detection on a subject in
LidOpening (a valid distinct transition) resets the counter to 0 and leaves
the state unchanged. -/
theorem C2_low_confidence_witness :
    (update defaultSMConfig
        { track_id := 1, current_state := .cap_opening, state_confidence := mkRat 8 10,
          consecutive_frames := 1, state_history := [], sequence_started_at := some 0,
          last_update := 0, sequence_states := [.bottle_in_hand, .cap_opening] }
        ActionState.drinking (mkRat 3 10) 5).1.current_state = ActionState.cap_opening ∧
    (update defaultSMConfig
        { track_id := 1, current_state := .cap_opening, state_confidence := mkRat 8 10,
          consecutive_frames := 1, state_history := [], sequence_started_at := some 0,
          last_update := 0, sequence_states := [.bottle_in_hand, .cap_opening] }
        ActionState.drinking (mkRat 3 10) 5).2.2.1 = false ∧
    (update defaultSMConfig
        { track_id := 1, current_state := .cap_opening, state_confidence := mkRat 8 10,
          consecutive_frames := 1, state_history := [], sequence_started_at := some 0,
          last_update := 0, sequence_states := [.bottle_in_hand, .cap_opening] }
        ActionState.drinking (mkRat 3 10) 5).1.consecutive_frames = 0 := by
  have h := C2_low_confidence
    { track_id := 1, current_state := .cap_opening, state_confidence := mkRat 8 10,
      consecutive_frames := 1, state_history := [], sequence_started_at := some 0,
      last_update := 0, sequence_states := [.bottle_in_hand, .cap_opening] }
    ActionState.drinking (mkRat 3 10) 5 (by decide)
  refine ⟨h.1, h.2.1, ?_⟩
  rw [h.2.2]
  decide

/-- C3: whenever `update` reports a completed sequence, the returned state
is Completed, the returned event's aggregate confidence is the mean of the
confidences of the last up-to-5 recorded transitions, and the subject is
immediately reset to Idle with an empty accumulated sequence; an event is
returned exactly when the completed flag is set (at most one per entry into
Completed). -/
theorem C3_completed_event (cfg : SMConfig) (person : TrackedPerson)
    (detected : ActionState) (c now : ℚ) :
    ((update cfg person detected c now).2.2.1 = true →
      (update cfg person detected c now).2.1 = ActionState.completed ∧
      (update cfg person detected c now).1.current_state = ActionState.idle ∧
      (update cfg person detected c now).1.sequence_states = [] ∧
      (∃ ev : EventData, (update cfg person detected c now).2.2.2 = some ev ∧
        ev.confidence =
          avg_recent_confidence (update cfg person detected c now).1.state_history)) ∧
    ((update cfg person detected c now).2.2.1 = false →
      (update cfg person detected c now).2.2.2 = none) := by
  rcases update_shape cfg person detected c now with
    ⟨ht, -, hret, hcur, hseq, hev⟩ | ⟨hf, hnone, -⟩
  · refine ⟨fun _ => ⟨hret, hcur, hseq, hev⟩, fun hfalse => ?_⟩
    rw [ht] at hfalse
    cases hfalse
  · refine ⟨fun htrue => ?_, fun _ => hnone⟩
    rw [hf] at htrue
    cases htrue

/-- C3 witness: a concrete Drinking→Completed commit returns the event with
the mean confidence of the recorded transitions and resets the subject. -/
theorem C3_completed_event_witness :
    (update defaultSMConfig
        { track_id := 2, current_state := .drinking, state_confidence := mkRat 8 10,
          consecutive_frames := 1,
          state_history := [{ from_state := .idle, to_state := .bottle_in_hand,
                              timestamp := 1, confidence := mkRat 7 10 },
                            { from_state := .bottle_in_hand, to_state := .cap_opening,
                              timestamp := 2, confidence := mkRat 8 10 },
                            { from_state := .cap_opening, to_state := .drinking,
                              timestamp := 3, confidence := mkRat 9 10 }],
          sequence_started_at := some 1, last_update := 3,
          sequence_states := [.bottle_in_hand, .cap_opening, .drinking] }
        ActionState.completed (mkRat 9 10) 4).1.current_state = ActionState.idle ∧
    (∃ ev : EventData,
      (update defaultSMConfig
        { track_id := 2, current_state := .drinking, state_confidence := mkRat 8 10,
          consecutive_frames := 1,
          state_history := [{ from_state := .idle, to_state := .bottle_in_hand,
                              timestamp := 1, confidence := mkRat 7 10 },
                            { from_state := .bottle_in_hand, to_state := .cap_opening,
                              timestamp := 2, confidence := mkRat 8 10 },
                            { from_state := .cap_opening, to_state := .drinking,
                              timestamp := 3, confidence := mkRat 9 10 }],
          sequence_started_at := some 1, last_update := 3,
          sequence_states := [.bottle_in_hand, .cap_opening, .drinking] }
        ActionState.completed (mkRat 9 10) 4).2.2.2 = some ev ∧
      ev.confidence = avg_recent_confidence
        (update defaultSMConfig
          { track_id := 2, current_state := .drinking, state_confidence := mkRat 8 10,
            consecutive_frames := 1,
            state_history := [{ from_state := .idle, to_state := .bottle_in_hand,
                                timestamp := 1, confidence := mkRat 7 10 },
                              { from_state := .bottle_in_hand, to_state := .cap_opening,
                                timestamp := 2, confidence := mkRat 8 10 },
                              { from_state := .cap_opening, to_state := .drinking,
                                timestamp := 3, confidence := mkRat 9 10 }],
            sequence_started_at := some 1, last_update := 3,
            sequence_states := [.bottle_in_hand, .cap_opening, .drinking] }
          ActionState.completed (mkRat 9 10) 4).1.state_history) := by
  have h := (C3_completed_event defaultSMConfig
    { track_id := 2, current_state := .drinking, state_confidence := mkRat 8 10,
      consecutive_frames := 1,
      state_history := [{ from_state := .idle, to_state := .bottle_in_hand,
                          timestamp := 1, confidence := mkRat 7 10 },
                        { from_state := .bottle_in_hand, to_state := .cap_opening,
                          timestamp := 2, confidence := mkRat 8 10 },
                        { from_state := .cap_opening, to_state := .drinking,
                          timestamp := 3, confidence := mkRat 9 10 }],
      sequence_started_at := some 1, last_update := 3,
      sequence_states := [.bottle_in_hand, .cap_opening, .drinking] }
    ActionState.completed (mkRat 9 10) 4).1 (by decide)
  exact ⟨h.2.1, h.2.2.2⟩

/-- C6 counterexample: Idle *is* in LidOpening's transition list, and a
subject reachable in LidOpening with consecutive-match counter 0 (driven
there by real `update` calls) is *not* reset by a single Idle detection at
confidence 0.95 — the call only raises the debounce counter to 1. -/
theorem C6_counterexample :
    (let p := stepPerson defaultSMConfig
        (stepPerson defaultSMConfig
          (stepPerson defaultSMConfig
            (stepPerson defaultSMConfig (mkTrackedPerson 1 0)
              ActionState.bottle_in_hand (mkRat 95 100) 1)
            ActionState.bottle_in_hand (mkRat 95 100) 2)
          ActionState.cap_opening (mkRat 95 100) 3)
        ActionState.drinking (mkRat 3 10) 4;
      p.current_state = ActionState.cap_opening ∧
      ActionState.idle ∈ VALID_TRANSITIONS ActionState.cap_opening ∧
      (update defaultSMConfig p ActionState.idle (mkRat 95 100) 5).1.current_state =
        ActionState.cap_opening ∧
      (update defaultSMConfig p ActionState.idle (mkRat 95 100) 5).1.consecutive_frames = 1) := by
  decide

/-- C6 (amended): Idle is a valid transition out of LidOpening, so an Idle
detection at confidence 0.95 takes the ordinary debounced path (never the
escape hatch); a single call resets the subject to Idle exactly when it
brings the consecutive-match counter up to `consecutive_frames_required`,
in particular when the subject has just committed into LidOpening
(counter = 1). -/
theorem C6_idle_from_lid_opening (person : TrackedPerson) (now : ℚ)
    (h1 : person.current_state = ActionState.cap_opening)
    (h2 : 1 ≤ person.consecutive_frames) :
    ActionState.idle ∈ VALID_TRANSITIONS ActionState.cap_opening ∧
    (update defaultSMConfig person ActionState.idle (mkRat 95 100) now).1.current_state =
      ActionState.idle ∧
    (update defaultSMConfig person ActionState.idle (mkRat 95 100) now).2.1 =
      ActionState.idle ∧
    (update defaultSMConfig person ActionState.idle (mkRat 95 100) now).1.sequence_states = [] ∧
    (update defaultSMConfig person ActionState.idle (mkRat 95 100) now).2.2.1 = false := by
  refine ⟨by decide, ?_⟩
  have hth : ¬ (mkRat 95 100 < defaultSMConfig.confidence_threshold) := by decide
  have hcnt : ¬ (person.consecutive_frames + 1 < defaultSMConfig.consecutive_frames_required) := by
    simp only [defaultSMConfig]
    omega
  have d1 : ¬ (ActionState.idle = ActionState.uncertain) := by decide
  have d2 : ¬ (ActionState.idle = ActionState.cap_opening) := by decide
  have d3 : ActionState.idle ∈ VALID_TRANSITIONS ActionState.cap_opening := by decide
  have d4 : ¬ (ActionState.idle ∈ SEQUENCE_STATES) := by decide
  have d5 : ¬ (ActionState.idle = ActionState.bottle_in_hand) := by decide
  have d6 : ¬ (ActionState.idle = ActionState.completed) := by decide
  simp [update, h1, hth, hcnt, reset_to_idle, d1, d2, d3, d4, d5, d6]

/-- C6 witness: a subject that has just committed into LidOpening
(counter = 1) is reset to Idle by a single Idle detection at 0.95. -/
theorem C6_idle_from_lid_opening_witness :
    (update defaultSMConfig
        { track_id := 1, current_state := .cap_opening, state_confidence := mkRat 8 10,
          consecutive_frames := 1, state_history := [], sequence_started_at := some 0,
          last_update := 0, sequence_states := [.bottle_in_hand, .cap_opening] }
        ActionState.idle (mkRat 95 100) 5).1.current_state = ActionState.idle ∧
    (update defaultSMConfig
        { track_id := 1, current_state := .cap_opening, state_confidence := mkRat 8 10,
          consecutive_frames := 1, state_history := [], sequence_started_at := some 0,
          last_update := 0, sequence_states := [.bottle_in_hand, .cap_opening] }
        ActionState.idle (mkRat 95 100) 5).1.sequence_states = [] := by
  have h := C6_idle_from_lid_opening
    { track_id := 1, current_state := .cap_opening, state_confidence := mkRat 8 10,
      consecutive_frames := 1, state_history := [], sequence_started_at := some 0,
      last_update := 0, sequence_states := [.bottle_in_hand, .cap_opening] }
    5 rfl (by decide)
  exact ⟨h.2.1, h.2.2.2.1⟩

/-- C8 counterexample: a well-formed JSON response with the unparseable
state label "flying" and confidence 0.9 parses to state Idle but keeps
confidence 0.9 — the confidence is not forced to 0. -/
theorem C8_counterexample :
    parseActionResponse (some { state := some "flying", confidence := some (mkRat 9 10) }) =
      (ActionState.idle, mkRat 9 10) ∧
    mkRat 9 10 ≠ (0 : ℚ) := by
  refine ⟨rfl, by decide⟩

/-- C8 (amended): a response that is not valid JSON parses to
(Idle, 0); a well-formed response whose state label is unknown parses to
state Idle, but its confidence field is propagated
(defaulting to 0 only when absent). -/
theorem C8_unparseable_state (decoded : Option LlmJson) :
    parseActionResponse none = (ActionState.idle, 0) ∧
    (∀ r : LlmJson, decoded = some r →
      (stateOfString (str_lower (rawStateOf r)) = none →
        (parseActionResponse decoded).1 = ActionState.idle) ∧
      (parseActionResponse decoded).2 = r.confidence.getD 0) := by
  refine ⟨rfl, ?_⟩
  rintro r rfl
  refine ⟨fun hn => ?_, rfl⟩
  simp [parseActionResponse, parse_response, parse_state, hn]

/-- C8 witness: the "flying"/0.9 response instantiates the amended claim. -/
theorem C8_unparseable_state_witness :
    (parseActionResponse (some { state := some "flying", confidence := some (mkRat 9 10) })).1 =
      ActionState.idle ∧
    (parseActionResponse (some { state := some "flying", confidence := some (mkRat 9 10) })).2 =
      mkRat 9 10 := by
  have h := (C8_unparseable_state
      (some { state := some "flying", confidence := some (mkRat 9 10) })).2
    { state := some "flying", confidence := some (mkRat 9 10) } rfl
  exact ⟨h.1 (by decide), h.2⟩

/-- C9 counterexample: with one buffered frame inside the clip window and
both encoders failing, the event is still forwarded but both artifact
references are the attempted paths, not null. -/
theorem C9_counterexample :
    handle_event_completed "e1" (some 4) (some 6)
        (add_frame (mkRingBuffer 30 15) 7 5).1 false false =
      (true, some "data/snapshots/e1.jpg", some "data/clips/e1.mp4") ∧
    some "data/clips/e1.mp4" ≠ (none : Option String) ∧
    some "data/snapshots/e1.jpg" ≠ (none : Option String) := by
  refine ⟨?_, by decide, by decide⟩
  norm_num [handle_event_completed, get_clip_frames, get_frames_in_range, add_frame,
    mkRingBuffer, RingBuffer.max_frames, save_clip_ok, List.filter_cons, decide_eq_true_eq,
    List.isEmpty]
  decide

/-- C9 (amended): materialization always forwards the event when both
timestamps are present, regardless of encoder success; the snapshot
reference is always the attempted path, and the clip reference is null
exactly when no buffered frames fall in the clip window. -/
theorem C9_forward_event (event_id : String) (s e : ℚ) (rb : RingBuffer)
    (snapshot_encode_ok clip_writer_ok : Bool) :
    handle_event_completed event_id (some s) (some e) rb snapshot_encode_ok clip_writer_ok =
      (true, some ("data/snapshots/" ++ event_id ++ ".jpg"),
        if (get_clip_frames rb s e).isEmpty then none
        else some ("data/clips/" ++ event_id ++ ".mp4")) := rfl

/-- C10: the fast loop's state-machine gate never passes an Idle or
Uncertain best action to `update`; an `update` call with a non-Idle,
non-Uncertain detection moves a non-Idle subject to Idle only by entering
Completed; and the stale sweep only removes subjects, never altering a
surviving subject's entry. -/
theorem C10_fast_loop_gate :
    (∀ (movenet llm : Option PersonDetection) (tid : ℤ) (st : ActionState) (c : ℚ),
        stateMachineCall movenet llm = some (tid, st, c) →
        st ≠ ActionState.idle ∧ st ≠ ActionState.uncertain) ∧
    (∀ (cfg : SMConfig) (person : TrackedPerson) (detected : ActionState) (c now : ℚ),
        detected ≠ ActionState.idle → detected ≠ ActionState.uncertain →
        person.current_state ≠ ActionState.idle →
        (update cfg person detected c now).1.current_state = ActionState.idle →
        (update cfg person detected c now).2.2.1 = true) ∧
    (∀ (m : Machine) (max_age now : ℚ) (tid : ℤ) (p : TrackedPerson),
        (tid, p) ∈ (cleanup_stale m max_age now).tracked_persons →
        (tid, p) ∈ m.tracked_persons) := by
  refine ⟨?_, ?_, ?_⟩
  · intro movenet llm tid st c h
    cases hb : bestDetection movenet llm with
    | none =>
      simp only [stateMachineCall, hb] at h
      exact Option.noConfusion h
    | some best =>
      simp only [stateMachineCall, hb] at h
      by_cases hg : best.action.state = ActionState.idle ∨
          best.action.state = ActionState.uncertain
      · rw [if_pos hg] at h
        cases h
      · rw [if_neg hg] at h
        push_neg at hg
        simp only [Option.some.injEq, Prod.mk.injEq] at h
        obtain ⟨-, hst, -⟩ := h
        rw [← hst]
        exact hg
  · intro cfg person detected c now hid hunc hcur hidle
    rcases update_shape cfg person detected c now with ⟨ht, -⟩ | ⟨-, -, hopt⟩
    · exact ht
    · rcases hopt with hsame | hdet | hdid
      · rw [hidle] at hsame
        exact absurd hsame.symm hcur
      · rw [hidle] at hdet
        exact absurd hdet.symm hid
      · exact absurd hdid hid
  · intro m max_age now tid p h
    unfold cleanup_stale at h
    simp only [List.mem_filter] at h
    exact h.1

/-- C10 witness: a cached Drinking detection passes the gate, and the gate's
emitted state is neither Idle nor Uncertain. -/
theorem C10_fast_loop_gate_witness :
    ActionState.drinking ≠ ActionState.idle ∧
    ActionState.drinking ≠ ActionState.uncertain :=
  C10_fast_loop_gate.1
    (some { track_id := 1, action := { state := .drinking, confidence := mkRat 8 10 } })
    none 1 ActionState.drinking (mkRat 8 10) rfl

end FactoryConsole
